import Mathlib

/-
Verification of the Research Aggregation & Alignment Pipeline of this
repository (src/tools.py).  The Python code is shallowly embedded: pure
string/list processing is translated function-by-function; results of
external calls (HTTP fetches, search-engine queries, and the `re` regex
library) are passed in explicitly as environment values, universally
quantified in the theorems; the `try/except` boundary of each public tool
is modelled by an `Except String Unit` parameter whose `.error e` case
corresponds to a Python exception `e` raised inside the body.
-/

namespace GradResearch

/-! ## String utilities

Python's `in`, `startswith`, `lower`, slicing and `dict.get` are modelled
over `String` (lists of characters, which is what Python string indexing
and slicing operate on). -/

/-- Prefix test on character lists. -/
def isPrefixCL : List Char → List Char → Bool
  | [], _ => true
  | _ :: _, [] => false
  | c :: p, d :: s => c == d && isPrefixCL p s

/-- Substring test on character lists: does `sub` occur contiguously? -/
def hasSubCL (sub : List Char) : List Char → Bool
  | [] => isPrefixCL sub []
  | c :: s => isPrefixCL sub (c :: s) || hasSubCL sub s

/-- Python `sub in s` (written `strContains s sub`). -/
def strContains (s sub : String) : Bool := hasSubCL sub.data s.data

/-- Python `s.startswith(p)`. -/
def strStartsWith (s p : String) : Bool := isPrefixCL p.data s.data

/-- Python `s.lower()`; `Char.toLower` lowers the ASCII range, which is the
range exercised by every string in this development. -/
def pyLower (s : String) : String := ⟨s.data.map Char.toLower⟩

/-- Python slice `s[:n]` for a non-negative `n` (characters). -/
def pyTake (n : Nat) (s : String) : String := ⟨s.data.take n⟩

/-- Python list slice `l[:n]` for an `int` bound: non-negative `n` keeps the
first `n` items, negative `n` drops the last `|n|` items (clamped at 0). -/
def pySlice (n : Int) (l : List α) : List α :=
  if 0 ≤ n then l.take n.toNat else l.take (l.length - (-n).toNat)

/-- Python `d.get(k, default)` on a string-keyed dict of strings,
the dict being modelled as an association list in insertion order. -/
def dictGet (d : List (String × String)) (k fallback : String) : String :=
  match d.lookup k with
  | some v => v
  | none => fallback

/-- Python `s.split()` (split on whitespace runs, dropping empty pieces). -/
def pySplitWS (s : String) : List String :=
  (s.split Char.isWhitespace).filter (fun t => t != "")

/-! ## Source Classifier: `determine_source_type` (src/tools.py 134-149) -/

/-- `determine_source_type(url)`: first matching rule wins, in the order
scholar, academic domains, institutional domains, pdf, publication
keywords, general.  Pure function of the URL string. -/
def determine_source_type (url : String) : String :=
  let u := pyLower url
  if strContains u "scholar.google.com" then "scholar"
  else if strContains u "arxiv.org" || strContains u "pubmed.ncbi.nlm.nih.gov"
      || strContains u "ieee.org" || strContains u "acm.org" then "academic"
  else if strContains u ".edu" || strContains u ".ac.uk" || strContains u ".edu.au" then
    "institutional"
  else if strContains u ".pdf" then "pdf"
  else if strContains u "journal" || strContains u "paper" || strContains u "article"
      || strContains u "publication" then "publication"
  else "general"

/-! ## Content Retriever: `get_retry_session` (src/tools.py 33-46) and
`enhanced_scrape_website` (src/tools.py 795-851) -/

/-- The `total=3` passed to `urllib3.util.retry.Retry` in `get_retry_session`. -/
def retryTotal : Nat := 3

/-- Number of HTTP requests issued when every request draws a transient
status (500/502/504).  Modelled from urllib3's documented `Retry`
semantics (the library is outside this repository): `total` counts
*retries*; each transient response consumes one retry, and the request
that finds the budget already spent raises `MaxRetryError`.  So a budget
of `n` retries yields `n + 1` requests in total. -/
def attemptsWhenAllTransient : Nat → Nat
  | 0 => 1
  | n + 1 => 1 + attemptsWhenAllTransient n

/-- `enhanced_scrape_website(url)`: `fetched` is the outcome of the
Firecrawl/requests fetch plus main-content text cleanup (`.ok text`), or
the exception raised by the transport (`.error e`).  The `except` branch
(src/tools.py 849-851) converts the failure into the sentinel string
`"Failed to scrape {url}: {e}"` instead of raising. -/
def enhanced_scrape_website (url : String) (fetched : Except String String) : String :=
  match fetched with
  | .ok text => text
  | .error e => "Failed to scrape " ++ url ++ ": " ++ e

/-! ## Data model of the Research Aggregator (src/tools.py 496-552) -/

/-- A paper record as produced by `extract_paper_info_from_text`
(src/tools.py 629-664): all keys always present. -/
structure Paper where
  title : String
  authors : String
  journal : String
  year : String
  citations : Nat
  abstract : String
  url : String

/-- The `research_data` dict of `comprehensive_professor_research`
(src/tools.py 511-523) together with the three keys the web-search stage
adds (`additional_papers`, `news_mentions`, `collaborations`). -/
structure ResearchData where
  professor_name : String
  institution : String
  department : String
  papers : List Paper
  research_interests : List String
  citations : Nat
  h_index : Nat
  i10_index : Nat
  institutional_profile : String
  lab_website : String
  recent_projects : List String
  additional_papers : List String
  news_mentions : List String
  collaborations : List String

/-- Result of `parse_scholar_data` (src/tools.py 582-627): always all five
keys when no exception occurs. -/
structure ScholarData where
  papers : List Paper
  research_interests : List String
  citations : Nat
  h_index : Nat
  i10_index : Nat

/-- Result of `extract_institutional_profile_info` (src/tools.py 666-698):
always these three keys when no exception occurs. -/
structure InstData where
  institutional_profile : String
  lab_website : String
  recent_projects : List String

/-- Result of `extract_web_search_research` (src/tools.py 700-729):
always these three keys (the code never appends to `collaborations`). -/
structure WebData where
  additional_papers : List String
  news_mentions : List String
  collaborations : List String

/-- Environment of one aggregation call: everything the external
search/scrape surfaces contribute.  `none` for a stage models the
empty-dict return of its extractor (the stage's own `except` branch);
`enrich` is the stream of `(abstract, url)` pairs that
`extract_paper_abstract` / `find_paper_url` return for successive papers,
`("", "")` when nothing is found. -/
structure CprEnv where
  scholar : Option ScholarData
  inst : Option InstData
  web : Option WebData
  enrich : List (String × String)

/-- The freshly initialised `research_data` dict (src/tools.py 511-523). -/
def initResearchData (professor_name institution department : String) : ResearchData :=
  { professor_name := professor_name
    institution := institution
    department := department
    papers := []
    research_interests := []
    citations := 0
    h_index := 0
    i10_index := 0
    institutional_profile := ""
    lab_website := ""
    recent_projects := []
    additional_papers := []
    news_mentions := []
    collaborations := [] }

/-- Stage 1 (src/tools.py 527-529): `research_data.update(scholar_data)`;
`parse_scholar_data` contributes exactly the five scholar keys. -/
def applyScholar (rd : ResearchData) (o : Option ScholarData) : ResearchData :=
  match o with
  | none => rd
  | some s =>
    { rd with
      papers := s.papers
      research_interests := s.research_interests
      citations := s.citations
      h_index := s.h_index
      i10_index := s.i10_index }

/-- Stage 2 (src/tools.py 531-535): runs only when `institution` is a
non-empty string; `extract_institutional_profile_info` contributes exactly
the three institutional keys. -/
def applyInstitutional (rd : ResearchData) (institution : String) (o : Option InstData) :
    ResearchData :=
  if institution = "" then rd
  else
    match o with
    | none => rd
    | some d =>
      { rd with
        institutional_profile := d.institutional_profile
        lab_website := d.lab_website
        recent_projects := d.recent_projects }

/-- Stage 3 (src/tools.py 537-540): `extract_web_search_research`
contributes exactly the three web-search keys. -/
def applyWeb (rd : ResearchData) (o : Option WebData) : ResearchData :=
  match o with
  | none => rd
  | some w =>
    { rd with
      additional_papers := w.additional_papers
      news_mentions := w.news_mentions
      collaborations := w.collaborations }

/-- One step of the enrichment loop body (src/tools.py 735-749): the paper
gets the abstract and URL the two searches produced (each possibly empty). -/
def enrichOne (p : Paper) (au : String × String) : Paper :=
  { p with abstract := au.1, url := au.2 }

/-- `extract_detailed_paper_info(papers)` (src/tools.py 731-755): every
paper passed in is kept, in order, with its abstract/url filled from the
enrichment environment; a paper whose enrichment found nothing keeps empty
strings there. -/
def extract_detailed_paper_info : List Paper → List (String × String) → List Paper
  | [], _ => []
  | p :: ps, e => enrichOne p (e.headD ("", "")) :: extract_detailed_paper_info ps e.tail

/-- Stage 4 (src/tools.py 543-545): when the paper list is non-empty,
replace it by the enriched `papers[:max_papers]` slice. -/
def applyEnrichment (rd : ResearchData) (max_papers : Int) (enrich : List (String × String)) :
    ResearchData :=
  if rd.papers.isEmpty then rd
  else { rd with papers := extract_detailed_paper_info (pySlice max_papers rd.papers) enrich }

/-- The merged `research_data` after the four stages of
`comprehensive_professor_research` (src/tools.py 525-545). -/
def buildResearchData (professor_name institution department : String) (max_papers : Int)
    (env : CprEnv) : ResearchData :=
  applyEnrichment
    (applyWeb
      (applyInstitutional
        (applyScholar (initResearchData professor_name institution department) env.scholar)
        institution env.inst)
      env.web)
    max_papers env.enrich

/-- One numbered entry of the `=== TOP PUBLICATIONS ===` block
(src/tools.py 870-878). -/
def formatPaperEntry (ip : Nat × Paper) : String :=
  "\n" ++ Nat.repr ip.1 ++ ". " ++ ip.2.title
    ++ "\n   Authors: " ++ ip.2.authors
    ++ "\n   Year: " ++ ip.2.year
    ++ "\n   Citations: " ++ Nat.repr ip.2.citations
    ++ "\n   Abstract: " ++ pyTake 300 ip.2.abstract ++ "..."
    ++ "\n   URL: " ++ ip.2.url ++ "\n"

/-- The numbered publication entries rendered by `format_research_data`:
`enumerate(research_data['papers'][:5], 1)`. -/
def paperEntries (rd : ResearchData) : List String :=
  ((rd.papers.take 5).enumFrom 1).map formatPaperEntry

/-- `format_research_data` (src/tools.py 853-897): the fixed report text. -/
def format_research_data (rd : ResearchData) : String :=
  "\n=== COMPREHENSIVE RESEARCH PROFILE ===\nProfessor: " ++ rd.professor_name
    ++ "\nInstitution: " ++ rd.institution
    ++ "\nDepartment: " ++ rd.department
    ++ "\n=== CITATION METRICS ===\nTotal Citations: " ++ Nat.repr rd.citations
    ++ "\nh-index: " ++ Nat.repr rd.h_index
    ++ "\ni10-index: " ++ Nat.repr rd.i10_index
    ++ "\n=== RESEARCH INTERESTS ===\n"
    ++ (if rd.research_interests.isEmpty then "Not specified"
        else String.intercalate ", " rd.research_interests)
    ++ "\n=== TOP PUBLICATIONS ===\n"
    ++ String.join (paperEntries rd)
    ++ (if rd.recent_projects.isEmpty then ""
        else "\n=== RECENT PROJECTS ===\n"
          ++ String.join (rd.recent_projects.map (fun p => "• " ++ p ++ "\n")))
    ++ (if rd.lab_website = "" then ""
        else "\n=== LAB WEBSITE ===\n" ++ rd.lab_website ++ "\n")

/-- `comprehensive_professor_research` (src/tools.py 496-552), body:
aggregate the four stages and render the report.  Every operation of the
body is total, so the pure semantics needs no exception case. -/
def comprehensive_professor_research (professor_name institution department : String)
    (max_papers : Int) (env : CprEnv) : String :=
  format_research_data (buildResearchData professor_name institution department max_papers env)

/-- The tool-call boundary of `comprehensive_professor_research`: its
`try/except` (src/tools.py 525-552).  `run = .error e` models a Python
exception `e` escaping the body. -/
def comprehensive_professor_research_tool (professor_name institution department : String)
    (max_papers : Int) (env : CprEnv) (run : Except String Unit) : String :=
  match run with
  | .ok _ => comprehensive_professor_research professor_name institution department max_papers env
  | .error e => "Error extracting comprehensive research data: " ++ e

/-! ## Position Extractor: `extract_phd_position_requirements`
(src/tools.py 899-990) -/

/-- Results of the regex searches over the scraped position page; each
`Option` field is the corresponding `re.search`/`re.findall` outcome
(`none` = no match).  Matched text is carried as the group the code reads. -/
structure PositionMatches where
  position_title : Option String
  department : Option String
  institution : Option String
  application_deadline : Option String
  qualifications_raw : Option (List String)
  research_areas_raw : Option String
  contact_info : Option String

/-- `requirements['required_qualifications']`: the bullet pieces of the
qualifications section, stripped, empties dropped (src/tools.py 943-948). -/
def positionQualifications (m : PositionMatches) : List String :=
  match m.qualifications_raw with
  | none => []
  | some qs => (qs.map String.trim).filter (fun q => q != "")

/-- `requirements['research_areas']`: the section text split on commas,
stripped, empties dropped (src/tools.py 951-954). -/
def positionResearchAreas (m : PositionMatches) : List String :=
  match m.research_areas_raw with
  | none => []
  | some t => ((t.trim.splitOn ",").map String.trim).filter (fun r => r != "")

/-- The `formatted_requirements` text (src/tools.py 962-986). -/
def format_position_requirements (m : PositionMatches) : String :=
  "=== PhD POSITION REQUIREMENTS ===\nPosition Title: "
    ++ (m.position_title.map String.trim).getD ""
    ++ "\nDepartment: " ++ (m.department.map String.trim).getD ""
    ++ "\nInstitution: " ++ (m.institution.map String.trim).getD ""
    ++ "\nApplication Deadline: " ++ (m.application_deadline.map String.trim).getD ""
    ++ "\n=== REQUIRED QUALIFICATIONS ===\n"
    ++ String.join ((positionQualifications m).map (fun q => "• " ++ q ++ "\n"))
    ++ (if (positionResearchAreas m).isEmpty then ""
        else "\n=== RESEARCH AREAS ===\n"
          ++ String.join ((positionResearchAreas m).map (fun a => "• " ++ a ++ "\n")))
    ++ (match m.contact_info with
        | none => ""
        | some c => "\n=== CONTACT INFORMATION ===\n" ++ c ++ "\n")

/-- Body of `extract_phd_position_requirements(position_url)`:
`content` is what `enhanced_scrape_website` returned; a sentinel failure
string short-circuits to `"Failed to scrape position URL: {content}"`
(src/tools.py 905-908). -/
def extract_phd_position_requirements (position_url content : String) (m : PositionMatches) :
    String :=
  if strStartsWith content "Failed to scrape" then
    "Failed to scrape position URL: " ++ content
  else
    format_position_requirements m

/-- The tool-call boundary of `extract_phd_position_requirements`
(src/tools.py 901-990). -/
def extract_phd_position_requirements_tool (position_url content : String) (m : PositionMatches)
    (run : Except String Unit) : String :=
  match run with
  | .ok _ => extract_phd_position_requirements position_url content m
  | .error e => "Error extracting position requirements: " ++ e

/-! ## Alignment Scorer (src/tools.py 992-1356) -/

/-- Python `a.lower() in b.lower()`. -/
def lowerIn (a b : String) : Bool := strContains (pyLower b) (pyLower a)

/-- The bidirectional containment test `x.lower() in y.lower() or
y.lower() in x.lower()` used for interest/skill matching. -/
def biMatch (x y : String) : Bool := lowerIn x y || lowerIn y x

/-- The `alignment_details` lines of `analyze_interests_alignment`
(src/tools.py 1192-1204), in append order: first the skill loop (every
matching (interest, skill) pair), then the experience loop (every
(interest, experience) pair with `interest.lower() in exp.lower()`). -/
def interests_alignment_details (pi us ue : List String) : List String :=
  List.flatten (pi.map (fun i =>
    (us.filter (fun s => biMatch i s)).map (fun s =>
      "Research interest \x27" ++ i ++ "\x27 aligns with your skill \x27" ++ s ++ "\x27")))
  ++ List.flatten (pi.map (fun i =>
    (ue.filter (fun e => lowerIn i e)).map (fun _ =>
      "Research interest \x27" ++ i ++ "\x27 aligns with your experience")))

/-- `alignment_score`: incremented exactly once per appended detail line. -/
def interests_alignment_score (pi us ue : List String) : Nat :=
  (interests_alignment_details pi us ue).length

/-- `max_possible = len(prof_interests) * 2` (src/tools.py 1207). -/
def interests_max_possible (pi : List String) : Nat := pi.length * 2

/-- `alignment_percentage = (alignment_score / max_possible * 100) if
max_possible > 0 else 0` (src/tools.py 1208), over exact rationals
(the Python floats are exact at every value this development touches). -/
def interests_alignment_percentage (pi us ue : List String) : ℚ :=
  if interests_max_possible pi > 0 then
    (interests_alignment_score pi us ue : ℚ) / (interests_max_possible pi : ℚ) * 100
  else 0

/-- Python `"%.1f" % x` for the exactly-representable values arising here:
one digit after the point, half away rounding via `round`. -/
def fmt1 (q : ℚ) : String :=
  let n : Int := round (q * 10)
  (if n < 0 then "-" else "") ++ Nat.repr (n.natAbs / 10) ++ "." ++ Nat.repr (n.natAbs % 10)

/-- `analyze_interests_alignment` result string (src/tools.py 1210-1214). -/
def analyze_interests_alignment (pi us ue : List String) : String :=
  "Research Interests Alignment: " ++ fmt1 (interests_alignment_percentage pi us ue) ++ "%\n"
    ++ String.join (((interests_alignment_details pi us ue).take 5).map
        (fun d => "  • " ++ d ++ "\n"))

/-- `aligned_skills` of `analyze_skills_alignment` (src/tools.py 1226-1232):
first matching skill per keyword (the inner loop breaks). -/
def skills_aligned (pk us : List String) : List String :=
  pk.filterMap (fun kw => (us.find? (fun s => biMatch kw s)).map (fun s => kw ++ " ↔ " ++ s))

/-- `missing_skills`: keywords with no matching skill (src/tools.py 1233-1234). -/
def skills_missing (pk us : List String) : List String :=
  pk.filter (fun kw => (us.find? (fun s => biMatch kw s)).isNone)

/-- `analyze_skills_alignment` result string (src/tools.py 1236-1244). -/
def analyze_skills_alignment (pk us : List String) : String :=
  "Skills Alignment: " ++ Nat.repr (skills_aligned pk us).length ++ "/"
    ++ Nat.repr pk.length ++ " keywords matched\n"
    ++ (if (skills_aligned pk us).isEmpty then ""
        else "Aligned skills:\n"
          ++ String.join (((skills_aligned pk us).take 5).map (fun a => "  • " ++ a ++ "\n")))
    ++ (if (skills_missing pk us).isEmpty then ""
        else "Potential gaps: " ++ String.intercalate ", " ((skills_missing pk us).take 3)
          ++ "...\n")

/-- `relevant_experience` of `analyze_experience_alignment`
(src/tools.py 1253-1258): every (keyword, experience) hit, no break. -/
def experience_relevant (pk ue : List String) : List String :=
  List.flatten (pk.map (fun kw =>
    (ue.filter (fun e => lowerIn kw e)).map (fun e => kw ++ ": " ++ e)))

/-- `analyze_experience_alignment` result string (src/tools.py 1260-1264). -/
def analyze_experience_alignment (pk ue : List String) : String :=
  "Experience Alignment: " ++ Nat.repr (experience_relevant pk ue).length
    ++ " relevant experiences found\n"
    ++ String.join (((experience_relevant pk ue).take 3).map (fun e => "  • " ++ e ++ "\n"))

/-- `relevant_projects` of `analyze_project_alignment` (src/tools.py 1273-1278). -/
def project_relevant (pk up : List String) : List String :=
  List.flatten (pk.map (fun kw =>
    (up.filter (fun p => lowerIn kw p)).map (fun p => kw ++ ": " ++ p)))

/-- `analyze_project_alignment` result string (src/tools.py 1280-1284). -/
def analyze_project_alignment (pk up : List String) : String :=
  "Project Alignment: " ++ Nat.repr (project_relevant pk up).length
    ++ " relevant projects found\n"
    ++ String.join (((project_relevant pk up).take 3).map (fun p => "  • " ++ p ++ "\n"))

/-- A qualification is met when some skill matches bidirectionally or some
experience contains it (src/tools.py 1299-1311). -/
def qualificationMet (q : String) (skills exps : List String) : Bool :=
  skills.any (fun s => biMatch q s) || exps.any (fun e => lowerIn q e)

/-- `met_qualifications` lines (src/tools.py 1296-1311). -/
def position_met_qualifications (quals skills exps : List String) : List String :=
  (quals.filter (fun q => qualificationMet q skills exps)).map (fun q => q ++ " ✓")

/-- `unmet_qualifications` lines (src/tools.py 1312-1313). -/
def position_unmet_qualifications (quals skills exps : List String) : List String :=
  (quals.filter (fun q => !qualificationMet q skills exps)).map (fun q => q ++ " ✗")

/-- `aligned_areas` lines (src/tools.py 1316-1321): first matching skill
per research area. -/
def position_aligned_areas (areas skills : List String) : List String :=
  areas.filterMap (fun a => (skills.find? (fun s => biMatch a s)).map (fun s => a ++ " ↔ " ++ s))

/-- `analyze_position_requirements_alignment` result string
(src/tools.py 1323-1337). -/
def analyze_position_requirements_alignment (quals areas skills exps : List String) : String :=
  "Position Requirements Alignment: " ++ Nat.repr (position_met_qualifications quals skills exps).length
    ++ "/" ++ Nat.repr quals.length ++ " qualifications met\n"
    ++ (if (position_met_qualifications quals skills exps).isEmpty then ""
        else "Met qualifications:\n"
          ++ String.join ((position_met_qualifications quals skills exps).map
              (fun q => "  • " ++ q ++ "\n")))
    ++ (if (position_unmet_qualifications quals skills exps).isEmpty then ""
        else "Unmet qualifications:\n"
          ++ String.join ((position_unmet_qualifications quals skills exps).map
              (fun q => "  • " ++ q ++ "\n")))
    ++ (if (position_aligned_areas areas skills).isEmpty then ""
        else "Research area alignment:\n"
          ++ String.join ((position_aligned_areas areas skills).map
              (fun a => "  • " ++ a ++ "\n")))

/-- `format_alignment_analysis` (src/tools.py 1343-1356): the header then
every non-empty section followed by a blank line, in dict insertion order. -/
def format_alignment_analysis (sections : List String) : String :=
  "=== RESEARCH ALIGNMENT ANALYSIS ===\n\n"
    ++ String.join ((sections.filter (fun v => v != "")).map (fun v => v ++ "\n\n"))

/-- Body of `analyze_research_alignment` (src/tools.py 992-1031).  The
seven lists are the outcomes of the pure regex-based extractors
(`extract_research_interests`, `extract_keywords`, `extract_user_skills`,
`extract_user_experience`, `extract_user_projects`,
`extract_position_qualifications`, `extract_position_research_areas`)
applied to the two (or three) input texts; the position section is
produced only when `position_requirements` is a non-empty string. -/
def analyze_research_alignment (prof_interests prof_keywords user_skills user_experience
    user_projects position_qualifications position_research_areas : List String)
    (position_requirements_nonempty : Bool) : String :=
  format_alignment_analysis
    [ analyze_interests_alignment prof_interests user_skills user_experience,
      analyze_skills_alignment prof_keywords user_skills,
      analyze_experience_alignment prof_keywords user_experience,
      analyze_project_alignment prof_keywords user_projects,
      if position_requirements_nonempty then
        analyze_position_requirements_alignment position_qualifications position_research_areas
          user_skills user_experience
      else "" ]

/-- The tool-call boundary of `analyze_research_alignment`
(src/tools.py 996-1031). -/
def analyze_research_alignment_tool (prof_interests prof_keywords user_skills user_experience
    user_projects position_qualifications position_research_areas : List String)
    (position_requirements_nonempty : Bool) (run : Except String Unit) : String :=
  match run with
  | .ok _ =>
    analyze_research_alignment prof_interests prof_keywords user_skills user_experience
      user_projects position_qualifications position_research_areas
      position_requirements_nonempty
  | .error e => "Error analyzing research alignment: " ++ e

/-! ## Document Assembler: `generate_personalized_email`
(src/tools.py 1358-1587) -/

/-- Results of the regex searches of `extract_professor_summary`
(src/tools.py 1410-1457); each field carries the group the code reads
(`none` = no match). `key_papers_titles` is the `re.findall` over the
matched publications section. -/
structure ProfMatches where
  name : Option String
  institution : Option String
  department : Option String
  research_interests : Option String
  key_papers_titles : Option (List String)
  recent_projects : Option String

/-- Results of the regex searches of `extract_user_summary`
(src/tools.py 1459-1508); `experience_entries` is the `re.findall`
(title, description) list over the matched experience section. -/
structure UserMatches where
  name : Option String
  degree : Option String
  institution : Option String
  key_skills : Option String
  experience_entries : Option (List (String × String))
  contact_info : Option String

/-- `extract_professor_summary`: a dict that always defines all six keys,
each defaulting to the empty string when its pattern found nothing. -/
def extract_professor_summary (m : ProfMatches) : List (String × String) :=
  [ ("name", (m.name.map String.trim).getD ""),
    ("institution", (m.institution.map String.trim).getD ""),
    ("department", (m.department.map String.trim).getD ""),
    ("research_interests", (m.research_interests.map String.trim).getD ""),
    ("key_papers",
      match m.key_papers_titles with
      | none => ""
      | some ps => String.intercalate "\n" ((ps.take 3).map
          (fun p => "• " ++ pyTake 100 p ++ "..."))),
    ("recent_projects", (m.recent_projects.map String.trim).getD "") ]

/-- `extract_user_summary`: a dict that always defines all seven keys
(`notable_projects` is never assigned and stays empty). -/
def extract_user_summary (m : UserMatches) : List (String × String) :=
  [ ("name", (m.name.map String.trim).getD ""),
    ("degree", m.degree.getD ""),
    ("institution", m.institution.getD ""),
    ("key_skills", (m.key_skills.map (fun s => pyTake 300 s.trim)).getD ""),
    ("relevant_experience",
      match m.experience_entries with
      | none => ""
      | some es => String.intercalate "\n" ((es.take 2).map
          (fun td => "• " ++ td.1 ++ ": " ++ pyTake 100 td.2 ++ "..."))),
    ("notable_projects", ""),
    ("contact_info", m.contact_info.getD "") ]

/-- `generate_subject_line` (src/tools.py 1510-1519). -/
def generate_subject_line (prof_info user_info : List (String × String))
    (position_requirements : String) : String :=
  if position_requirements = "" then
    "Subject: Research Interest Inquiry - " ++ dictGet prof_info "name" "Professor"
      ++ " - " ++ dictGet user_info "name" "Applicant"
  else
    "Subject: PhD Application - " ++ dictGet prof_info "name" "Professor"
      ++ " - " ++ dictGet user_info "name" "Applicant"

/-- `professor_name.split()[-1] if ' ' in professor_name else professor_name`
(src/tools.py 1524); `none` models the IndexError raised when the name is
whitespace only, which the surrounding `except` turns into the fallback
introduction. -/
def pyLastNameOpt (n : String) : Option String :=
  if strContains n " " then (pySplitWS n).getLast? else some n

/-- `generate_introduction` (src/tools.py 1521-1531). -/
def generate_introduction (professor_name : String) (prof_info user_info : List (String × String)) :
    String :=
  match pyLastNameOpt professor_name with
  | some ln =>
    "Dear Professor " ++ ln
      ++ ",\nI hope this email finds you well. I am writing to express my strong interest in your research at "
      ++ dictGet prof_info "institution" "your institution"
      ++ ". As a recent " ++ dictGet user_info "degree" "graduate"
      ++ " from " ++ dictGet user_info "institution" "my university"
      ++ ", I have been following your work in "
      ++ dictGet prof_info "research_interests" "your field"
      ++ " with great admiration."
  | none =>
    "Dear Professor,\n\nI hope this email finds you well. I am writing to express my interest in your research."

/-- `generate_research_interest_section` (src/tools.py 1533-1545). -/
def generate_research_interest_section (prof_info : List (String × String))
    (alignment_analysis : String) : String :=
  "Your research on " ++ dictGet prof_info "research_interests" "various topics"
    ++ " particularly resonates with my academic background and research interests. I have been especially impressed by your recent work, including:\n"
    ++ dictGet prof_info "key_papers" "Your notable publications"
    ++ "\n" ++ dictGet prof_info "recent_projects" "Your current projects"
    ++ "\nBased on my analysis of your research profile, I believe there is strong alignment between your work and my expertise."

/-- `generate_background_alignment_section` (src/tools.py 1547-1560). -/
def generate_background_alignment_section (user_info : List (String × String))
    (alignment_analysis : String) : String :=
  "My background has prepared me well to contribute to your research group. I have developed strong expertise in:\n"
    ++ dictGet user_info "key_skills" "Relevant technical skills"
    ++ "\n" ++ dictGet user_info "relevant_experience" "Relevant experience"
    ++ "\n" ++ alignment_analysis
    ++ "\nThis combination of skills and experience has given me a solid foundation in the methodologies and approaches that are central to your research."

/-- `generate_position_requirements_section` (src/tools.py 1562-1574). -/
def generate_position_requirements_section (position_requirements alignment_analysis : String) :
    String :=
  "I am particularly interested in the PhD position you have advertised, and I am confident that I meet the key requirements:\n"
    ++ position_requirements
    ++ "\n" ++ alignment_analysis
    ++ "\nI am excited about the opportunity to contribute to your ongoing research projects and believe that my skills and enthusiasm would make me a valuable addition to your team."

/-- `generate_closing_section` (src/tools.py 1576-1587). -/
def generate_closing_section (user_info : List (String × String)) (additional_context : String) :
    String :=
  "I would be grateful for the opportunity to discuss how my background and research interests align with your work. Please let me know if you would be available for a brief conversation or if you require any additional information.\n"
    ++ additional_context
    ++ "\nThank you for your time and consideration. I look forward to hearing from you."

/-- Body of `generate_personalized_email` (src/tools.py 1358-1404): the
sections joined by the final f-string, ending with the signature block. -/
def generate_personalized_email (professor_name : String) (pm : ProfMatches) (um : UserMatches)
    (position_requirements additional_context alignment_analysis : String) : String :=
  let prof_info := extract_professor_summary pm
  let user_info := extract_user_summary um
  generate_subject_line prof_info user_info position_requirements
    ++ "\n" ++ generate_introduction professor_name prof_info user_info
    ++ "\n" ++ generate_research_interest_section prof_info alignment_analysis
    ++ "\n" ++ generate_background_alignment_section user_info alignment_analysis
    ++ "\n" ++ (if position_requirements = "" then ""
        else generate_position_requirements_section position_requirements alignment_analysis)
    ++ "\n" ++ generate_closing_section user_info additional_context
    ++ "\nBest regards,\n" ++ dictGet user_info "name" "Your Name"
    ++ "\n" ++ dictGet user_info "contact_info" ""
    ++ "\n"

/-- The tool-call boundary of `generate_personalized_email`
(src/tools.py 1370-1408). -/
def generate_personalized_email_tool (professor_name : String) (pm : ProfMatches)
    (um : UserMatches) (position_requirements additional_context alignment_analysis : String)
    (run : Except String Unit) : String :=
  match run with
  | .ok _ =>
    generate_personalized_email professor_name pm um position_requirements additional_context
      alignment_analysis
  | .error e => "Error generating personalized email: " ++ e

/-- On an entirely empty `professor_research` text every regex search in
`extract_professor_summary` fails (each pattern requires at least one
literal character), so every match is `none`. -/
def emptyProfMatches : ProfMatches :=
  { name := none, institution := none, department := none, research_interests := none,
    key_papers_titles := none, recent_projects := none }

/-- On an entirely empty `user_background` text every regex search in
`extract_user_summary` fails, so every match is `none`. -/
def emptyUserMatches : UserMatches :=
  { name := none, degree := none, institution := none, key_skills := none,
    experience_entries := none, contact_info := none }

/-- The email produced from entirely empty professor-research and
user-background texts (and empty name/position/context/analysis). -/
def emptyProfileEmail : String :=
  generate_personalized_email "" emptyProfMatches emptyUserMatches "" "" ""

/-- A concrete aggregation environment with three scholar papers and one
enrichment result, used to exercise the paper cap at `max_papers = 2`. -/
def c9WitnessEnv : CprEnv :=
  { scholar := some
      { papers :=
          [ { title := "T1", authors := "A1", journal := "", year := "2020",
              citations := 1, abstract := "", url := "" },
            { title := "T2", authors := "A2", journal := "", year := "2021",
              citations := 2, abstract := "", url := "" },
            { title := "T3", authors := "A3", journal := "", year := "2022",
              citations := 3, abstract := "", url := "" } ],
        research_interests := ["optimization"],
        citations := 9, h_index := 2, i10_index := 1 },
    inst := none, web := none, enrich := [("an abstract", "http://u.edu/p.pdf")] }

/-- A concrete aggregation environment with a single scholar paper, used to
exercise the paper slice at the negative bound `max_papers = -1`. -/
def c9NegativeEnv : CprEnv :=
  { scholar := some
      { papers :=
          [ { title := "T", authors := "A", journal := "", year := "2020",
              citations := 3, abstract := "", url := "" } ],
        research_interests := [],
        citations := 0, h_index := 0, i10_index := 0 },
    inst := none, web := none, enrich := [] }

/-! ## Helper lemmas -/

set_option maxRecDepth 100000

theorem string_data_append (s t : String) : (s ++ t).data = s.data ++ t.data := by
  cases s; cases t; rfl

theorem isPrefixCL_append_right (p q r : List Char) (h : isPrefixCL p q = true) :
    isPrefixCL p (q ++ r) = true := by
  induction p generalizing q with
  | nil => simp [isPrefixCL]
  | cons c p ih =>
    cases q with
    | nil => simp [isPrefixCL] at h
    | cons d q =>
      simp only [isPrefixCL, List.cons_append, Bool.and_eq_true] at h ⊢
      exact ⟨h.1, ih q h.2⟩

theorem hasSubCL_nil_left (t : List Char) : hasSubCL [] t = true := by
  cases t <;> simp [hasSubCL, isPrefixCL]

theorem hasSubCL_append_left (sub s t : List Char) (h : hasSubCL sub s = true) :
    hasSubCL sub (s ++ t) = true := by
  induction s with
  | nil =>
    cases sub with
    | nil => simpa using hasSubCL_nil_left t
    | cons c p => simp [hasSubCL, isPrefixCL] at h
  | cons c s ih =>
    simp only [hasSubCL, Bool.or_eq_true] at h
    rcases h with hp | hs
    · simp only [List.cons_append, hasSubCL, Bool.or_eq_true]
      exact Or.inl (isPrefixCL_append_right sub (c :: s) t hp)
    · simp only [List.cons_append, hasSubCL, Bool.or_eq_true]
      exact Or.inr (ih hs)

theorem strContains_append_left (s t sub : String) (h : strContains s sub = true) :
    strContains (s ++ t) sub = true := by
  unfold strContains at h ⊢
  rw [string_data_append]
  exact hasSubCL_append_left _ _ _ h

theorem strStartsWith_append_left (s t p : String) (h : strStartsWith s p = true) :
    strStartsWith (s ++ t) p = true := by
  unfold strStartsWith at h ⊢
  rw [string_data_append]
  exact isPrefixCL_append_right _ _ _ h

theorem format_research_data_has_header (rd : ResearchData) :
    strContains (format_research_data rd) "=== COMPREHENSIVE RESEARCH PROFILE ===" = true := by
  unfold format_research_data
  repeat apply strContains_append_left
  decide

theorem format_alignment_analysis_has_header (sections : List String) :
    strContains (format_alignment_analysis sections) "=== RESEARCH ALIGNMENT ANALYSIS ===" = true := by
  unfold format_alignment_analysis
  apply strContains_append_left
  decide

theorem extract_detailed_paper_info_length (ps : List Paper) (e : List (String × String)) :
    (extract_detailed_paper_info ps e).length = ps.length := by
  induction ps generalizing e with
  | nil => rfl
  | cons p ps ih => simp [extract_detailed_paper_info, ih]

theorem pySlice_length_le (N : Int) (hN : 0 ≤ N) (l : List α) :
    ((pySlice N l).length : Int) ≤ N := by
  have h1 : (pySlice N l).length ≤ N.toNat := by
    simp [pySlice, hN, List.length_take]
  omega

/-! ## Claim theorems -/

/-- C1: the claim says the interest-alignment percentage is in [0, 100]
because each interest can contribute at most 1 skill point and at most 1
experience point.  The code disagrees with its own inline comment
(`Max 2 points per interest`, src/tools.py 1207): the skill loop
(src/tools.py 1193-1197) has no `break`, so a single interest earns one
point per matching skill.  With one interest matching three skills the
score is 3 out of a maximum of 2 and the percentage is 150, above 100. -/
theorem interests_alignment_percentage_exceeds_100 :
    interests_alignment_score ["ai"] ["ai", "ai systems", "explainable ai"] [] = 3
    ∧ interests_max_possible ["ai"] = 2
    ∧ interests_alignment_percentage ["ai"] ["ai", "ai systems", "explainable ai"] [] = 150
    ∧ (100 : ℚ) < interests_alignment_percentage ["ai"] ["ai", "ai systems", "explainable ai"] [] := by
  have hs : interests_alignment_score ["ai"] ["ai", "ai systems", "explainable ai"] [] = 3 := by
    decide
  have hm : interests_max_possible ["ai"] = 2 := by decide
  have hp : interests_alignment_percentage ["ai"] ["ai", "ai systems", "explainable ai"] [] = 150 := by
    unfold interests_alignment_percentage
    rw [hs, hm]
    norm_num
  exact ⟨hs, hm, hp, by rw [hp]; norm_num⟩

/-- C2: no exception crosses a tool-call boundary.  Each tool is a total
function of its arguments plus an `Except`-valued run outcome, and every
failure branch returns a string beginning with `Error` (the `except`
clauses of the four tools) or `Failed` (the scrape-failure guard of
`extract_phd_position_requirements`, src/tools.py 907-908). -/
theorem tool_failures_return_marked_strings :
    (∀ (n i d : String) (mp : Int) (env : CprEnv) (e : String),
      strStartsWith (comprehensive_professor_research_tool n i d mp env (.error e)) "Error" = true)
    ∧ (∀ (u c : String) (m : PositionMatches) (e : String),
      strStartsWith (extract_phd_position_requirements_tool u c m (.error e)) "Error" = true)
    ∧ (∀ (u rest : String) (m : PositionMatches),
      strStartsWith (extract_phd_position_requirements_tool u ("Failed to scrape " ++ rest) m
        (.ok ())) "Failed" = true)
    ∧ (∀ (pi pk us ue up pq pa : List String) (b : Bool) (e : String),
      strStartsWith (analyze_research_alignment_tool pi pk us ue up pq pa b (.error e))
        "Error" = true)
    ∧ (∀ (pn : String) (pm : ProfMatches) (um : UserMatches) (pr ac aa e : String),
      strStartsWith (generate_personalized_email_tool pn pm um pr ac aa (.error e))
        "Error" = true) := by
  refine ⟨?_, ?_, ?_, ?_, ?_⟩
  · intro n i d mp env e
    apply strStartsWith_append_left
    decide
  · intro u c m e
    apply strStartsWith_append_left
    decide
  · intro u rest m
    have hc : strStartsWith ("Failed to scrape " ++ rest) "Failed to scrape" = true := by
      apply strStartsWith_append_left
      decide
    show strStartsWith (extract_phd_position_requirements u ("Failed to scrape " ++ rest) m)
      "Failed" = true
    unfold extract_phd_position_requirements
    rw [hc]
    simp only [if_true]
    apply strStartsWith_append_left
    decide
  · intro pi pk us ue up pq pa b e
    apply strStartsWith_append_left
    decide
  · intro pn pm um pr ac aa e
    apply strStartsWith_append_left
    decide

/-- C3: for every argument list and every external environment, the
research profile contains `=== COMPREHENSIVE RESEARCH PROFILE ===` and the
alignment report contains `=== RESEARCH ALIGNMENT ANALYSIS ===`.  Both
bodies are total (every internal stage catches its own failures and
returns defaults), so the pure semantics covers all runs of the tools. -/
theorem output_headers_always_present :
    (∀ (n i d : String) (mp : Int) (env : CprEnv),
      strContains (comprehensive_professor_research n i d mp env)
        "=== COMPREHENSIVE RESEARCH PROFILE ===" = true)
    ∧ (∀ (pi pk us ue up pq pa : List String) (b : Bool),
      strContains (analyze_research_alignment pi pk us ue up pq pa b)
        "=== RESEARCH ALIGNMENT ANALYSIS ===" = true) := by
  constructor
  · intro n i d mp env
    exact format_research_data_has_header (buildResearchData n i d mp env)
  · intro pi pk us ue up pq pa b
    exact format_alignment_analysis_has_header _

/-- C4 counterexample: with entirely empty professor-research and
user-background texts (every summary regex finds nothing, so each summary
dict maps its keys to the empty string and `dict.get` never falls back),
the assembled email contains neither the `Your Name` signature
placeholder nor the `your institution` placeholder — the claim that every
substitution slot is filled with its literal placeholder phrase fails. -/
theorem empty_profiles_email_lacks_placeholders :
    strContains emptyProfileEmail "Your Name" = false
    ∧ strContains emptyProfileEmail "your institution" = false := by
  exact ⟨by decide, by decide⟩

/-- C4 as amended: the empty-profile email is still a non-empty message,
but empty extracted fields yield empty substitutions (the subject line
reads `Subject: Research Interest Inquiry -  - `); the literal placeholder
phrases are used only when a summary key is absent altogether, i.e. when
summary extraction failed with an exception and returned an empty dict. -/
theorem empty_profiles_email_nonempty_with_empty_slots :
    0 < emptyProfileEmail.length
    ∧ strStartsWith emptyProfileEmail
        "Subject: Research Interest Inquiry -  - \nDear Professor ," = true
    ∧ dictGet (extract_user_summary emptyUserMatches) "name" "Your Name" = ""
    ∧ dictGet (extract_professor_summary emptyProfMatches) "institution" "your institution" = ""
    ∧ dictGet ([] : List (String × String)) "name" "Your Name" = "Your Name" := by
  exact ⟨by decide, by decide, by decide, by decide, by decide⟩

/-- C5: the five fields the scholar stage populates (citations, h_index,
i10_index, research_interests, papers) survive the institutional and
web-search merge stages untouched — those stages write only their own
disjoint keys — and all but the paper list (which the later enrichment
stage rewrites) survive to the final aggregated record as well. -/
theorem scholar_fields_survive_later_merges :
    ∀ (n i d : String) (sd : ScholarData) (io : Option InstData) (wo : Option WebData)
      (mp : Int) (en : List (String × String)),
      ((applyWeb (applyInstitutional (applyScholar (initResearchData n i d) (some sd)) i io)
          wo).citations = sd.citations)
      ∧ ((applyWeb (applyInstitutional (applyScholar (initResearchData n i d) (some sd)) i io)
          wo).h_index = sd.h_index)
      ∧ ((applyWeb (applyInstitutional (applyScholar (initResearchData n i d) (some sd)) i io)
          wo).i10_index = sd.i10_index)
      ∧ ((applyWeb (applyInstitutional (applyScholar (initResearchData n i d) (some sd)) i io)
          wo).research_interests = sd.research_interests)
      ∧ ((applyWeb (applyInstitutional (applyScholar (initResearchData n i d) (some sd)) i io)
          wo).papers = sd.papers)
      ∧ ((buildResearchData n i d mp ⟨some sd, io, wo, en⟩).citations = sd.citations)
      ∧ ((buildResearchData n i d mp ⟨some sd, io, wo, en⟩).h_index = sd.h_index)
      ∧ ((buildResearchData n i d mp ⟨some sd, io, wo, en⟩).i10_index = sd.i10_index)
      ∧ ((buildResearchData n i d mp ⟨some sd, io, wo, en⟩).research_interests
          = sd.research_interests) := by
  intro n i d sd io wo mp en
  cases io <;> cases wo <;>
    by_cases hi : i = "" <;>
      by_cases hp : sd.papers.isEmpty = true <;>
        simp [buildResearchData, applyEnrichment, applyWeb, applyInstitutional, applyScholar,
          initResearchData, hi, hp]

/-- C6: `determine_source_type` is a pure function of the URL in which the
scholar rule is checked first (any URL whose lowercased form contains
`scholar.google.com` is classified `scholar` no matter what else it
contains), and the three scenario URLs classify as the claim states. -/
theorem determine_source_type_priority_and_scenarios :
    (∀ (url : String), strContains (pyLower url) "scholar.google.com" = true →
      determine_source_type url = "scholar")
    ∧ determine_source_type "https://scholar.google.com/citations?user=X" = "scholar"
    ∧ determine_source_type "https://mit.edu/~prof" = "institutional"
    ∧ determine_source_type "https://example.com/file.pdf" = "pdf" := by
  refine ⟨?_, by decide, by decide, by decide⟩
  intro url h
  simp [determine_source_type, h]

/-- C6 witness: the scholar-priority implication of
`determine_source_type_priority_and_scenarios` applied at a concrete URL. -/
theorem determine_source_type_priority_witness :
    strContains (pyLower "http://scholar.google.com/citations?user=Y") "scholar.google.com" = true
    ∧ determine_source_type "http://scholar.google.com/citations?user=Y" = "scholar" :=
  ⟨by decide,
    determine_source_type_priority_and_scenarios.1 "http://scholar.google.com/citations?user=Y"
      (by decide)⟩

/-- C7 counterexample: with the configured budget `Retry(total=3)`
(src/tools.py 37), an always-transient fetch issues 4 HTTP attempts —
urllib3's `total` counts retries, not attempts — so the fetch does not
perform exactly 3 attempts as claimed. -/
theorem retry_attempt_count_is_four_not_three :
    attemptsWhenAllTransient retryTotal = 4 ∧ 3 < attemptsWhenAllTransient retryTotal :=
  ⟨by decide, by decide⟩

/-- C7 as amended: a fetch whose every attempt draws a transient status
performs exactly `total + 1 = 4` attempts (the initial request plus the 3
configured retries) and then `enhanced_scrape_website` returns the
failure-marked string `Failed to scrape {url}: {error}` instead of
raising. -/
theorem retry_budget_and_failure_marker :
    attemptsWhenAllTransient retryTotal = retryTotal + 1
    ∧ attemptsWhenAllTransient retryTotal = 4
    ∧ (∀ (url err : String),
        strStartsWith (enhanced_scrape_website url (.error err)) "Failed to scrape" = true) := by
  refine ⟨by decide, by decide, ?_⟩
  intro url err
  show strStartsWith ("Failed to scrape " ++ url ++ ": " ++ err) "Failed to scrape" = true
  repeat apply strStartsWith_append_left
  decide

/-- C8: zero-denominator sub-scores degrade to 0 rather than raising: the
interest percentage is 0 whenever the interest list is empty, the skills
line reads `0/0 keywords matched` for an empty keyword list, and a
position record with 0 qualifications renders `0/0 qualifications met`. -/
theorem zero_denominator_scores_are_zero :
    (∀ (us ue : List String), interests_alignment_percentage [] us ue = 0)
    ∧ (∀ (us : List String),
        analyze_skills_alignment [] us = "Skills Alignment: 0/0 keywords matched\n")
    ∧ (∀ (areas skills exps : List String),
        strContains (analyze_position_requirements_alignment [] areas skills exps)
          "0/0 qualifications met" = true) := by
  refine ⟨?_, ?_, ?_⟩
  · intro us ue
    simp [interests_alignment_percentage, interests_max_possible]
  · intro us
    have h1 : skills_aligned [] us = [] := rfl
    have h2 : skills_missing [] us = [] := rfl
    unfold analyze_skills_alignment
    rw [h1, h2]
    decide
  · intro areas skills exps
    unfold analyze_position_requirements_alignment
    apply strContains_append_left
    have h1 : position_met_qualifications [] skills exps = [] := rfl
    have h2 : position_unmet_qualifications [] skills exps = [] := rfl
    rw [h1, h2]
    decide

/-- C9 counterexample: `max_papers` is a Python `int`, and at the negative
value `-1` the slice `papers[:max_papers]` drops the last paper instead of
capping: with one scholar paper the final list has length 0, which is not
`≤ -1`, so the cap claim fails as universally stated. -/
theorem negative_max_papers_violates_cap :
    (buildResearchData "Prof X" "" "" (-1) c9NegativeEnv).papers.length = 0
    ∧ (-1 : Int) < ((buildResearchData "Prof X" "" "" (-1) c9NegativeEnv).papers.length : Int) :=
  ⟨by decide, by decide⟩

/-- C9 as amended: for every non-negative `max_papers = N` the aggregated
paper list after enrichment has length at most `N`, and enrichment keeps
every paper passed in — same titles, authors, years and citation counts,
in order — filling only abstract/url (empty when nothing was found). -/
theorem papers_capped_and_enrichment_preserves :
    ∀ (N : Int), 0 ≤ N → ∀ (n i d : String) (env : CprEnv),
      (((buildResearchData n i d N env).papers.length : Int) ≤ N)
      ∧ (∀ (ps : List Paper) (e : List (String × String)),
          (extract_detailed_paper_info ps e).map
              (fun p => (p.title, p.authors, p.year, p.citations))
            = ps.map (fun p => (p.title, p.authors, p.year, p.citations))) := by
  intro N hN n i d env
  constructor
  · unfold buildResearchData applyEnrichment
    split
    · rename_i h
      simp only [List.isEmpty_iff] at h
      rw [h]
      simpa using hN
    · simp only [extract_detailed_paper_info_length]
      exact pySlice_length_le N hN _
  · intro ps e
    induction ps generalizing e with
    | nil => rfl
    | cons p ps ih => simp [extract_detailed_paper_info, enrichOne, ih]

/-- C9 witness: the amended cap theorem applied at `N = 2` with a concrete
three-paper environment. -/
theorem papers_capped_witness :
    0 ≤ (2 : Int)
    ∧ ((((buildResearchData "N" "I" "D" 2 c9WitnessEnv).papers.length : Int) ≤ 2)
      ∧ (∀ (ps : List Paper) (e : List (String × String)),
          (extract_detailed_paper_info ps e).map
              (fun p => (p.title, p.authors, p.year, p.citations))
            = ps.map (fun p => (p.title, p.authors, p.year, p.citations)))) :=
  ⟨by decide, papers_capped_and_enrichment_preserves 2 (by decide) "N" "I" "D" c9WitnessEnv⟩

/-- C10: the `=== TOP PUBLICATIONS ===` block of the rendered profile
numbers exactly `min 5 (number of papers)` entries — at most 5 — for every
aggregated record, however long its internal paper list is. -/
theorem top_publications_numbers_at_most_five :
    ∀ (rd : ResearchData),
      (paperEntries rd).length = min 5 rd.papers.length ∧ (paperEntries rd).length ≤ 5 := by
  intro rd
  have h : (paperEntries rd).length = min 5 rd.papers.length := by
    simp [paperEntries, List.length_take]
  exact ⟨h, by rw [h]; exact Nat.min_le_left _ _⟩

end GradResearch
